import Mathlib

/-!
Verification development for `training_mgmnt/static/js/attendance_ekyc.js`,
the browser-side EKYC attendance widget.  The file below is a shallow
embedding of the widget: DOM elements that the script may or may not find
are modelled as `Option` values (`none` = `querySelector`/`getElementById`
returned `null`), a parsed JSON response body is `Option RespData`
(`none` = the JSON literal `null`), and the outcome of the awaited
`fetch`/`resp.json()` pair is `FetchResult` (`thrown` = the try/catch
caught an exception).  Click handlers become pure state transformers; the
interleaving granted by the single-threaded event loop is captured by a
per-row labelled step relation whose guards reflect that a disabled
button never fires a click event.
-/

namespace EkycWidget

/-- A parsed JSON response object, per the documented contract
`{ success: True/False, status: '...', status_display: '...' }`
(attendance_ekyc.js lines 3 and 49/72).  `success` is its truthiness;
the two label fields are absent (`none`) or a string. -/
structure RespData where
  success : Bool
  status_display : Option String
  status : Option String
deriving Repr, DecidableEq

/-- Outcome of `await fetch(...)` followed by `await resp.json()`
(lines 48-49 and 71-72): either a parsed body (possibly the JSON value
`null`) or an exception caught by the surrounding try/catch. -/
inductive FetchResult where
  | ok : Option RespData → FetchResult
  | thrown : FetchResult
deriving Repr, DecidableEq

/-- One participant table row (`#ekyc_table tbody tr`).  The two buttons
are `none` when the element is absent, `some b` when present with
disabled-flag `b`; `ekycStatus` / `actionStatus` are the `textContent` of
the `.ekyc-status` / `.actionStatus` children when those exist. -/
structure Row where
  participantId : String
  participantRole : String
  recordBtn : Option Bool
  verifyBtn : Option Bool
  ekycStatus : Option String
  actionStatus : Option String
deriving Repr, DecidableEq

/-- JavaScript `v || dflt` on an optional string: `undefined` and the
empty string are falsy, any other string is returned as is. -/
def jsOr (v : Option String) (dflt : String) : String :=
  match v with
  | some s => if s = "" then dflt else s
  | none => dflt

/-- The label written into `.ekyc-status` on success:
`data.status_display || data.status || dflt` (lines 52 and 75). -/
def respLabel (d : RespData) (dflt : String) : String :=
  jsOr d.status_display (jsOr d.status dflt)

/-- Models `if(statusEl) statusEl.textContent = msg` — the
`.actionStatus` element was captured at click time, so the update applies
only when it exists. -/
def setActionStatus (r : Row) (msg : String) : Row :=
  { r with actionStatus := r.actionStatus.map (fun _ => msg) }

/-- The record handler's code before its first `await` (lines 43-44):
caption becomes " Recording...", the clicked record button (which exists,
since it was clicked) is disabled, and the row's verify button is
disabled when present. -/
def recordClickPre (r : Row) : Row :=
  { r with actionStatus := r.actionStatus.map (fun _ => " Recording..."),
           recordBtn := some true,
           verifyBtn := r.verifyBtn.map (fun _ => true) }

/-- The whole record click handler on its row (lines 40-60): the
pre-await phase followed by the response dispatch.  On `data &&
data.success` it writes the response label, caption
" Fingerprint recorded", and re-enables the verify button; on falsy
`data`/`data.success` it writes " Failed"; on a caught exception
" Error". -/
def recordHandler (r : Row) (res : FetchResult) : Row :=
  let r1 := recordClickPre r
  match res with
  | FetchResult.ok (some d) =>
    if d.success then
      { r1 with ekycStatus := r1.ekycStatus.map (fun _ => respLabel d "Recorded"),
                actionStatus := r1.actionStatus.map (fun _ => " Fingerprint recorded"),
                verifyBtn := r1.verifyBtn.map (fun _ => false) }
    else setActionStatus r1 " Failed"
  | FetchResult.ok none => setActionStatus r1 " Failed"
  | FetchResult.thrown => setActionStatus r1 " Error"

/-- The verify handler's code before its first `await` (lines 66-67):
caption " Verifying...", the clicked verify button disabled, the row's
record button disabled when present. -/
def verifyClickPre (r : Row) : Row :=
  { r with actionStatus := r.actionStatus.map (fun _ => " Verifying..."),
           verifyBtn := some true,
           recordBtn := r.recordBtn.map (fun _ => true) }

/-- Row-local effect of the verify success branch (lines 75-78): label
from the response, caption " Verified", record button disabled again when
present, the clicked verify button disabled again. -/
def verifySuccessRow (r : Row) (d : RespData) : Row :=
  { r with ekycStatus := r.ekycStatus.map (fun _ => respLabel d "Verified"),
           actionStatus := r.actionStatus.map (fun _ => " Verified"),
           recordBtn := r.recordBtn.map (fun _ => true),
           verifyBtn := some true }

/-- The predicate evaluated on each scanned row by line 80:
`r.querySelector('.ekyc-status').textContent.trim().toLowerCase() ===
'verified'`; a row without the child element cannot satisfy it. -/
def rowReadsVerified (r : Row) : Bool :=
  match r.ekycStatus with
  | some s => s.trim.toLower == "verified"
  | none => false

/-- The `all.every(...)` scan of line 80.  `Array.every` short-circuits:
rows after the first falsifying row are never visited.  A visited row
whose `.ekyc-status` child is absent makes the callback dereference
`null`, throwing a TypeError, modelled as `Except.error ()`. -/
def scanAllVerified : List Row → Except Unit Bool
  | [] => Except.ok true
  | r :: rs =>
    match r.ekycStatus with
    | none => Except.error ()
    | some s => if s.trim.toLower == "verified" then scanAllVerified rs else Except.ok false

/-- What the verify handler does beyond its own row: whether
`doneMsg.style.display = 'block'` ran and whether
`setTimeout(() => location.reload(), 900)` was installed (lines 81-84). -/
structure VerifyEffects where
  showDoneMsg : Bool
  scheduleReload : Bool
deriving Repr, DecidableEq

/-- No done-message shown, no reload scheduled. -/
def noEffects : VerifyEffects := { showDoneMsg := false, scheduleReload := false }

/-- Delay of the simulated connection test, `setTimeout(..., 2000)` (line 31). -/
def testDelayMs : Nat := 2000

/-- Simulated fingerprint-processing delay, `await new Promise(r=>setTimeout(r,1500))` (lines 45 and 68). -/
def actionDelayMs : Nat := 1500

/-- Delay before the scheduled reload, `setTimeout(()=> location.reload(), 900)` (line 83). -/
def reloadDelayMs : Nat := 900

/-- The whole verify click handler (lines 63-90) over the participants
table.  `i` locates the clicked row (`t.closest('tr')`; an out-of-range
`i` models the `if(!row) return` early exit), `doneMsgPresent` records
whether `#ekyc_done_msg` exists.  On success the row is updated in place
and then line 80 scans the (already mutated) table; if the scan throws,
the catch at line 89 overwrites the caption with " Error" and neither the
done message nor the reload happens. -/
def verifyHandler (doneMsgPresent : Bool) (table : List Row) (i : Nat)
    (res : FetchResult) : List Row × VerifyEffects :=
  match table[i]? with
  | none => (table, noEffects)
  | some row =>
    let r1 := verifyClickPre row
    let t1 := table.set i r1
    match res with
    | FetchResult.ok (some d) =>
      if d.success then
        let r2 := verifySuccessRow r1 d
        let t2 := t1.set i r2
        match scanAllVerified t2 with
        | Except.error _ => (t2.set i (setActionStatus r2 " Error"), noEffects)
        | Except.ok true => (t2, { showDoneMsg := doneMsgPresent, scheduleReload := true })
        | Except.ok false => (t2, noEffects)
      else (t1.set i (setActionStatus r1 " Failed"), noEffects)
    | FetchResult.ok none => (t1.set i (setActionStatus r1 " Failed"), noEffects)
    | FetchResult.thrown => (t1.set i (setActionStatus r1 " Error"), noEffects)

/-- The verify click handler restricted to the clicked row itself
(lines 63-90 with the table-wide scan abstracted to the boolean
`scanThrew`: whether line 80 threw).  This is the per-row projection of
`verifyHandler`, used for the row-local transition system. -/
def rowVerifyHandler (r : Row) (res : FetchResult) (scanThrew : Bool) : Row :=
  let r1 := verifyClickPre r
  match res with
  | FetchResult.ok (some d) =>
    if d.success then
      let r2 := verifySuccessRow r1 d
      if scanThrew then setActionStatus r2 " Error" else r2
    else setActionStatus r1 " Failed"
  | FetchResult.ok none => setActionStatus r1 " Failed"
  | FetchResult.thrown => setActionStatus r1 " Error"

/-- The record button is present and enabled: only then can a click on it
reach the delegated handler (disabled elements do not fire click events). -/
def recordEnabled (r : Row) : Prop := r.recordBtn = some false

/-- The verify button is present and enabled. -/
def verifyEnabled (r : Row) : Prop := r.verifyBtn = some false

/-- A complete row action: which button was clicked, the fetch outcome,
and (for verify) whether the table scan threw. -/
inductive Act where
  | recordAct : FetchResult → Act
  | verifyAct : FetchResult → Bool → Act
deriving Repr, DecidableEq

/-- Labelled transition of one row.  A step requires the clicked button
to be present and enabled; both handlers disable both of the row's
buttons before their first `await`, so the click-to-completion run of a
handler is atomic as far as its own row is concerned. -/
inductive RowStep : Row → Act → Row → Prop where
  | record : ∀ r res, recordEnabled r → RowStep r (Act.recordAct res) (recordHandler r res)
  | verify : ∀ r res b, verifyEnabled r → RowStep r (Act.verifyAct res b) (rowVerifyHandler r res b)

/-- Endpoint initialisation (line 11):
`root ? root.dataset.endpoint : window.location.href`.  The outer option
is the `#ekyc_root` element, the inner one its `data-endpoint` attribute
(`none` = the attribute is absent, so `root.dataset.endpoint` is
`undefined`).  The result is `none` exactly when the endpoint is the
JavaScript value `undefined`. -/
def endpointInit (root : Option (Option String)) (pageHref : String) : Option String :=
  match root with
  | some dataEndpoint => dataEndpoint
  | none => some pageHref

/-- Cookie lookup (line 7).  The browser's cookie jar is modelled as an
association list; the source regex
`(^|;)\s*name\s*=\s*([^;]+)` returns the first occurrence's value and
`''` when there is no match, which on a well-formed jar is first-match
lookup with `""` as the default (an empty-valued cookie fails the regex's
`[^;]+` and also yields `""` here). -/
def getCookie (cookieJar : List (String × String)) (name : String) : String :=
  match cookieJar.lookup name with
  | some v => v
  | none => ""

/-- One outgoing POST as assembled by lines 47-48 / 70-71: URL
(`undefined` endpoint possible), method, the two headers, and the
`FormData` body as an ordered field list. -/
structure Request where
  url : Option String
  method : String
  xRequestedWith : String
  xCsrfToken : String
  body : List (String × String)
deriving Repr, DecidableEq

/-- The request built for a given action name and row (lines 47-48,
70-71): `POST endpoint` with headers
`X-Requested-With: XMLHttpRequest` and `X-CSRFToken: getCookie('csrftoken')`,
body fields `action`, `participant_id`, `participant_role` in that
order. -/
def actionRequest (endpoint : Option String) (cookieJar : List (String × String))
    (actionName : String) (r : Row) : Request :=
  { url := endpoint, method := "POST",
    xRequestedWith := "XMLHttpRequest",
    xCsrfToken := getCookie cookieJar "csrftoken",
    body := [("action", actionName),
             ("participant_id", r.participantId),
             ("participant_role", r.participantRole)] }

/-- The fetches issued by one run of the record handler: exactly the one
`fetch` call of line 48. -/
def recordFetches (endpoint : Option String) (cookieJar : List (String × String))
    (r : Row) : List Request :=
  [actionRequest endpoint cookieJar "record_fingerprint" r]

/-- The fetches issued by one run of the verify handler: exactly the one
`fetch` call of line 71. -/
def verifyFetches (endpoint : Option String) (cookieJar : List (String × String))
    (r : Row) : List Request :=
  [actionRequest endpoint cookieJar "verify_ekyc" r]

/-- The fetches issued by the test-connection handler (lines 20-32):
none — the "connection test" is a pure timer simulation. -/
def testClickFetches : List Request := []

/-- UI state touched by the test-connection handler.  Optional fields are
the elements looked up at lines 13-16 (`none` = absent, guarded by
`if(...)` in the source); `focusedFirstRecord` records whether line 29
moved focus. -/
structure TestState where
  testBtnDisabled : Bool
  testStatus : Option String
  loaderVisible : Option Bool
  participantsVisible : Option Bool
  focusedFirstRecord : Bool
deriving Repr, DecidableEq

/-- Synchronous part of the test-connection click handler (lines 21-23):
disable the button, caption "Testing...", show the loader. -/
def testClickImmediate (s : TestState) : TestState :=
  { s with testBtnDisabled := true,
           testStatus := s.testStatus.map (fun _ => "Testing..."),
           loaderVisible := s.loaderVisible.map (fun _ => true) }

/-- The timer callback of lines 24-31, fired after `testDelayMs`:
hide the loader, caption "Connection succeeded!", reveal the
participants container; `firstEnabledRecordExists` says whether
`document.querySelector('.recordBtn:not([disabled])')` found a button to
focus. -/
def testTimeoutFire (s : TestState) (firstEnabledRecordExists : Bool) : TestState :=
  { s with loaderVisible := s.loaderVisible.map (fun _ => false),
           testStatus := s.testStatus.map (fun _ => "Connection succeeded!"),
           participantsVisible := s.participantsVisible.map (fun _ => true),
           focusedFirstRecord := firstEnabledRecordExists }

/-- The scan of line 80 returns `true` exactly when every table row has a
`.ekyc-status` child whose trimmed, lower-cased text is "verified". -/
theorem scanAllVerified_ok_true_iff (t : List Row) :
    scanAllVerified t = Except.ok true ↔ ∀ r ∈ t, rowReadsVerified r = true := by
  induction t with
  | nil => simp [scanAllVerified]
  | cons r rs ih =>
    cases h : r.ekycStatus with
    | none => simp [scanAllVerified, h, rowReadsVerified]
    | some s =>
      cases c : s.trim.toLower == "verified" with
      | false => simp [scanAllVerified, h, rowReadsVerified, c]
      | true => simp [scanAllVerified, h, rowReadsVerified, c, ih]

/-- The scan of line 80 throws exactly when some row lacking a
`.ekyc-status` child is actually visited by `Array.every`, i.e. when
every row before it reads "verified". -/
theorem scanAllVerified_error_iff (t : List Row) :
    scanAllVerified t = Except.error () ↔
      ∃ t1 r t2, t = t1 ++ r :: t2 ∧ r.ekycStatus = none
        ∧ ∀ x ∈ t1, rowReadsVerified x = true := by
  induction t with
  | nil =>
    constructor
    · intro h; simp [scanAllVerified] at h
    · rintro ⟨t1, r, t2, heq, -, -⟩
      exact absurd heq (by simp)
  | cons r rs ih =>
    cases h : r.ekycStatus with
    | none =>
      constructor
      · intro _
        exact ⟨[], r, rs, rfl, h, by simp⟩
      · intro _
        simp [scanAllVerified, h]
    | some s =>
      cases c : s.trim.toLower == "verified" with
      | false =>
        constructor
        · intro hscan
          simp [scanAllVerified, h, c] at hscan
        · rintro ⟨t1, r', t2, heq, hn, hall⟩
          cases t1 with
          | nil =>
            simp only [List.nil_append, List.cons.injEq] at heq
            rw [heq.1] at h
            rw [h] at hn
            exact absurd hn (by simp)
          | cons a t1x =>
            simp only [List.cons_append, List.cons.injEq] at heq
            have : rowReadsVerified r = true := by
              rw [heq.1]
              exact hall a (List.mem_cons_self a t1x)
            simp [rowReadsVerified, h, c] at this
      | true =>
        have lhs : scanAllVerified (r :: rs) = scanAllVerified rs := by
          simp [scanAllVerified, h, c]
        rw [lhs, ih]
        constructor
        · rintro ⟨t1, r', t2, heq, hn, hall⟩
          refine ⟨r :: t1, r', t2, by rw [heq]; rfl, hn, ?_⟩
          intro x hx
          rcases List.mem_cons.mp hx with hx | hx
          · rw [hx]; simp [rowReadsVerified, h, c]
          · exact hall x hx
        · rintro ⟨t1, r', t2, heq, hn, hall⟩
          cases t1 with
          | nil =>
            simp only [List.nil_append, List.cons.injEq] at heq
            rw [heq.1] at h
            rw [h] at hn
            exact absurd hn (by simp)
          | cons a t1x =>
            simp only [List.cons_append, List.cons.injEq] at heq
            refine ⟨t1x, r', t2, heq.2, hn, ?_⟩
            intro x hx
            exact hall x (List.mem_cons_of_mem a hx)

/-- A concrete participant row: record enabled, verify still disabled. -/
def rowIdle : Row :=
  { participantId := "42", participantRole := "trainee",
    recordBtn := some false, verifyBtn := some true,
    ekycStatus := some "Pending", actionStatus := some "" }

/-- A concrete successful response carrying both label fields. -/
def respOk : RespData :=
  { success := true, status_display := some "Recorded", status := some "RECORDED" }

/-- A successful response whose `status_display` is present but empty:
JavaScript `||` treats it as falsy and falls through to `status`. -/
def respEmptyDisplay : RespData :=
  { success := true, status_display := some "", status := some "RECORDED" }

/-- C1: a row transition yields an enabled verify button only when it is
a record action whose response parsed with truthy `success`; and once a
verify action succeeds, both of the row's buttons are disabled and the
row admits no further transition at all (so nothing ever re-enables
them). -/
theorem c1_verify_gated_by_record_and_verified_terminal :
    (∀ r a r2, RowStep r a r2 → verifyEnabled r2 →
       ∃ d, a = Act.recordAct (FetchResult.ok (some d)) ∧ d.success = true)
    ∧ (∀ r d b, d.success = true →
         ¬ recordEnabled (rowVerifyHandler r (FetchResult.ok (some d)) b)
         ∧ ¬ verifyEnabled (rowVerifyHandler r (FetchResult.ok (some d)) b)
         ∧ ∀ a r2, ¬ RowStep (rowVerifyHandler r (FetchResult.ok (some d)) b) a r2) := by
  constructor
  · intro r a r2 hstep hen
    cases hstep with
    | record res hg =>
      cases res with
      | thrown =>
        exfalso
        cases hv : r.verifyBtn <;>
          simp [recordHandler, recordClickPre, setActionStatus, verifyEnabled, hv] at hen
      | ok od =>
        cases od with
        | none =>
          exfalso
          cases hv : r.verifyBtn <;>
            simp [recordHandler, recordClickPre, setActionStatus, verifyEnabled, hv] at hen
        | some d =>
          by_cases hs : d.success = true
          · exact ⟨d, rfl, hs⟩
          · exfalso
            cases hv : r.verifyBtn <;>
              simp [recordHandler, recordClickPre, setActionStatus, verifyEnabled, hv, hs] at hen
    | verify res b hg =>
      exfalso
      cases res with
      | thrown =>
        simp [rowVerifyHandler, verifyClickPre, setActionStatus, verifyEnabled] at hen
      | ok od =>
        cases od with
        | none =>
          simp [rowVerifyHandler, verifyClickPre, setActionStatus, verifyEnabled] at hen
        | some d =>
          by_cases hs : d.success = true <;> cases b <;>
            simp [rowVerifyHandler, verifyClickPre, verifySuccessRow, setActionStatus,
              verifyEnabled, hs] at hen
  · intro r d b hs
    have hrec : ¬ recordEnabled (rowVerifyHandler r (FetchResult.ok (some d)) b) := by
      cases hr : r.recordBtn <;> cases b <;>
        simp [rowVerifyHandler, verifyClickPre, verifySuccessRow, setActionStatus,
          recordEnabled, hs, hr]
    have hver : ¬ verifyEnabled (rowVerifyHandler r (FetchResult.ok (some d)) b) := by
      cases b <;>
        simp [rowVerifyHandler, verifyClickPre, verifySuccessRow, setActionStatus,
          verifyEnabled, hs]
    refine ⟨hrec, hver, ?_⟩
    intro a r2 hstep
    cases hstep with
    | record res hg => exact hrec hg
    | verify res b2 hg => exact hver hg

/-- Witness for C1 at concrete inputs: a successful record step on
`rowIdle` is classified as the enabling transition, and after a
successful verify the verify button is not enabled. -/
theorem c1_witness :
    (∃ d, Act.recordAct (FetchResult.ok (some respOk))
            = Act.recordAct (FetchResult.ok (some d)) ∧ d.success = true)
    ∧ ¬ verifyEnabled (rowVerifyHandler rowIdle (FetchResult.ok (some respOk)) false) :=
  ⟨c1_verify_gated_by_record_and_verified_terminal.1 rowIdle _ _
      (RowStep.record rowIdle (FetchResult.ok (some respOk)) rfl) rfl,
   (c1_verify_gated_by_record_and_verified_terminal.2 rowIdle respOk false rfl).2.1⟩

/-- C9: both delegated handlers disable the clicked button before their
first `await`, so from the post-disable state no second click step on the
same button is possible. -/
theorem c9_no_reentrant_click :
    ∀ r : Row,
      (∀ res r2, ¬ RowStep (recordClickPre r) (Act.recordAct res) r2)
      ∧ (∀ res b r2, ¬ RowStep (verifyClickPre r) (Act.verifyAct res b) r2) := by
  intro r
  constructor
  · intro res r2 h
    cases h with
    | record res2 hg => simp [recordEnabled, recordClickPre] at hg
  · intro res b r2 h
    cases h with
    | verify res2 b2 hg => simp [verifyEnabled, verifyClickPre] at hg

/-- Witness for C9 at a concrete row: no record step can start from the
state the record handler reaches before its first await. -/
theorem c9_witness :
    ¬ RowStep (recordClickPre rowIdle) (Act.recordAct FetchResult.thrown)
        (recordHandler (recordClickPre rowIdle) FetchResult.thrown) :=
  (c9_no_reentrant_click rowIdle).1 FetchResult.thrown
    (recordHandler (recordClickPre rowIdle) FetchResult.thrown)

/-- C2 counterexample: `status_display` present but equal to the empty
string is falsy for JavaScript `||`, so the handler writes the `status`
fallback, not the present `status_display`. -/
theorem c2_counterexample :
    respEmptyDisplay.status_display = some ""
    ∧ (recordHandler rowIdle (FetchResult.ok (some respEmptyDisplay))).ekycStatus
        = some "RECORDED"
    ∧ (some "RECORDED" : Option String) ≠ some "" := by
  refine ⟨rfl, by decide, by decide⟩

/-- C2 (amended): on a record response with truthy `success`, the caption
becomes " Fingerprint recorded", the verify button is re-enabled, the
record button stays disabled, and the status label becomes
`status_display` if present and non-empty, else `status` if present and
non-empty, else the literal "Recorded". -/
theorem c2_record_success_amended :
    ∀ (r : Row) (d : RespData), d.success = true →
      ((recordHandler r (FetchResult.ok (some d))).actionStatus
          = r.actionStatus.map (fun _ => " Fingerprint recorded"))
      ∧ ((recordHandler r (FetchResult.ok (some d))).verifyBtn
          = r.verifyBtn.map (fun _ => false))
      ∧ ((recordHandler r (FetchResult.ok (some d))).recordBtn = some true)
      ∧ (∀ s, d.status_display = some s → s ≠ "" →
           (recordHandler r (FetchResult.ok (some d))).ekycStatus
             = r.ekycStatus.map (fun _ => s))
      ∧ ((d.status_display = none ∨ d.status_display = some "") →
           ∀ s, d.status = some s → s ≠ "" →
             (recordHandler r (FetchResult.ok (some d))).ekycStatus
               = r.ekycStatus.map (fun _ => s))
      ∧ ((d.status_display = none ∨ d.status_display = some "") →
           (d.status = none ∨ d.status = some "") →
           (recordHandler r (FetchResult.ok (some d))).ekycStatus
             = r.ekycStatus.map (fun _ => "Recorded")) := by
  intro r d hs
  refine ⟨?_, ?_, ?_, ?_, ?_, ?_⟩
  · cases ha : r.actionStatus <;>
      simp [recordHandler, recordClickPre, hs, ha]
  · cases hv : r.verifyBtn <;>
      simp [recordHandler, recordClickPre, hs, hv]
  · simp [recordHandler, recordClickPre, hs]
  · intro s hsd hne
    simp [recordHandler, recordClickPre, hs, respLabel, jsOr, hsd, hne]
  · intro hsd s hst hne
    cases hsd with
    | inl h0 => simp [recordHandler, recordClickPre, hs, respLabel, jsOr, h0, hst, hne]
    | inr h0 => simp [recordHandler, recordClickPre, hs, respLabel, jsOr, h0, hst, hne]
  · intro hsd hst
    cases hsd with
    | inl h0 =>
      cases hst with
      | inl h1 => simp [recordHandler, recordClickPre, hs, respLabel, jsOr, h0, h1]
      | inr h1 => simp [recordHandler, recordClickPre, hs, respLabel, jsOr, h0, h1]
    | inr h0 =>
      cases hst with
      | inl h1 => simp [recordHandler, recordClickPre, hs, respLabel, jsOr, h0, h1]
      | inr h1 => simp [recordHandler, recordClickPre, hs, respLabel, jsOr, h0, h1]

/-- Witness for C2 (amended) at concrete inputs: `rowIdle` with a
successful response whose `status_display` is the non-empty "Recorded". -/
theorem c2_witness :
    (recordHandler rowIdle (FetchResult.ok (some respOk))).ekycStatus
      = rowIdle.ekycStatus.map (fun _ => "Recorded") :=
  (c2_record_success_amended rowIdle respOk rfl).2.2.2.1 "Recorded" rfl (by decide)

/-- Shape of a row after a failed action: the caption holds the failure
message, the status label is untouched, and neither button is enabled. -/
def recordFailedShape (r r2 : Row) (msg : String) : Prop :=
  r2.actionStatus = r.actionStatus.map (fun _ => msg)
  ∧ r2.ekycStatus = r.ekycStatus
  ∧ ¬ recordEnabled r2
  ∧ ¬ verifyEnabled r2

/-- C3: a record action that fails — `success` falsy (including a `null`
body) or a thrown fetch/JSON exception — writes " Failed" respectively
" Error" into the caption, leaves the status label unchanged, and leaves
both of the row's buttons not enabled. -/
theorem c3_record_failure :
    ∀ (r : Row) (res : FetchResult),
      (∀ d, res = FetchResult.ok (some d) → d.success = false →
         recordFailedShape r (recordHandler r res) " Failed")
      ∧ (res = FetchResult.ok none →
         recordFailedShape r (recordHandler r res) " Failed")
      ∧ (res = FetchResult.thrown →
         recordFailedShape r (recordHandler r res) " Error") := by
  intro r res
  refine ⟨?_, ?_, ?_⟩
  · intro d hres hs
    subst hres
    refine ⟨?_, ?_, ?_, ?_⟩
    · cases ha : r.actionStatus <;>
        simp [recordHandler, recordClickPre, setActionStatus, hs, ha]
    · simp [recordHandler, recordClickPre, setActionStatus, hs]
    · simp [recordHandler, recordClickPre, setActionStatus, recordEnabled, hs]
    · cases hv : r.verifyBtn <;>
        simp [recordHandler, recordClickPre, setActionStatus, verifyEnabled, hs, hv]
  · intro hres
    subst hres
    refine ⟨?_, ?_, ?_, ?_⟩
    · cases ha : r.actionStatus <;>
        simp [recordHandler, recordClickPre, setActionStatus, ha]
    · simp [recordHandler, recordClickPre, setActionStatus]
    · simp [recordHandler, recordClickPre, setActionStatus, recordEnabled]
    · cases hv : r.verifyBtn <;>
        simp [recordHandler, recordClickPre, setActionStatus, verifyEnabled, hv]
  · intro hres
    subst hres
    refine ⟨?_, ?_, ?_, ?_⟩
    · cases ha : r.actionStatus <;>
        simp [recordHandler, recordClickPre, setActionStatus, ha]
    · simp [recordHandler, recordClickPre, setActionStatus]
    · simp [recordHandler, recordClickPre, setActionStatus, recordEnabled]
    · cases hv : r.verifyBtn <;>
        simp [recordHandler, recordClickPre, setActionStatus, verifyEnabled, hv]

/-- Witness for C3 at concrete inputs: a thrown fetch on `rowIdle`. -/
theorem c3_witness :
    recordFailedShape rowIdle (recordHandler rowIdle FetchResult.thrown) " Error" :=
  (c3_record_failure rowIdle FetchResult.thrown).2.2 rfl

/-- A concrete row after a successful record: verify enabled, record
disabled. -/
def rowRecorded : Row :=
  { participantId := "42", participantRole := "trainee",
    recordBtn := some true, verifyBtn := some false,
    ekycStatus := some "Recorded", actionStatus := some " Fingerprint recorded" }

/-- A successful verify response whose `status_display` is present but
empty while `status` is "VERIFIED". -/
def respEmptyDisplayVerify : RespData :=
  { success := true, status_display := some "", status := some "VERIFIED" }

/-- The spec's concrete scenario: success with no `status_display` and
raw `status` "VERIFIED". -/
def respVerified : RespData :=
  { success := true, status_display := none, status := some "VERIFIED" }

/-- C4 counterexample: with `status_display` present but equal to the
empty string, the verify success branch writes the `status` fallback, not
the present `status_display`. -/
theorem c4_counterexample :
    respEmptyDisplayVerify.status_display = some ""
    ∧ (rowVerifyHandler rowRecorded
          (FetchResult.ok (some respEmptyDisplayVerify)) false).ekycStatus
        = some "VERIFIED"
    ∧ (some "VERIFIED" : Option String) ≠ some "" :=
  ⟨rfl, by decide, by decide⟩

/-- C4 (amended): on a verify response with truthy `success` (and the
table scan not throwing), the caption becomes " Verified", both buttons
end up disabled, and the status label becomes `status_display` if present
and non-empty, else `status` if present and non-empty, else the literal
"Verified". -/
theorem c4_verify_success_amended :
    ∀ (r : Row) (d : RespData), d.success = true →
      ((rowVerifyHandler r (FetchResult.ok (some d)) false).actionStatus
          = r.actionStatus.map (fun _ => " Verified"))
      ∧ ¬ recordEnabled (rowVerifyHandler r (FetchResult.ok (some d)) false)
      ∧ ((rowVerifyHandler r (FetchResult.ok (some d)) false).verifyBtn = some true)
      ∧ (∀ s, d.status_display = some s → s ≠ "" →
           (rowVerifyHandler r (FetchResult.ok (some d)) false).ekycStatus
             = r.ekycStatus.map (fun _ => s))
      ∧ ((d.status_display = none ∨ d.status_display = some "") →
           ∀ s, d.status = some s → s ≠ "" →
             (rowVerifyHandler r (FetchResult.ok (some d)) false).ekycStatus
               = r.ekycStatus.map (fun _ => s))
      ∧ ((d.status_display = none ∨ d.status_display = some "") →
           (d.status = none ∨ d.status = some "") →
           (rowVerifyHandler r (FetchResult.ok (some d)) false).ekycStatus
             = r.ekycStatus.map (fun _ => "Verified")) := by
  intro r d hs
  refine ⟨?_, ?_, ?_, ?_, ?_, ?_⟩
  · cases ha : r.actionStatus <;>
      simp [rowVerifyHandler, verifyClickPre, verifySuccessRow, hs, ha]
  · cases hr : r.recordBtn <;>
      simp [rowVerifyHandler, verifyClickPre, verifySuccessRow, recordEnabled, hs, hr]
  · simp [rowVerifyHandler, verifyClickPre, verifySuccessRow, hs]
  · intro s hsd hne
    simp [rowVerifyHandler, verifyClickPre, verifySuccessRow, hs, respLabel, jsOr, hsd, hne]
  · intro hsd s hst hne
    cases hsd with
    | inl h0 =>
      simp [rowVerifyHandler, verifyClickPre, verifySuccessRow, hs, respLabel, jsOr, h0, hst, hne]
    | inr h0 =>
      simp [rowVerifyHandler, verifyClickPre, verifySuccessRow, hs, respLabel, jsOr, h0, hst, hne]
  · intro hsd hst
    cases hsd with
    | inl h0 =>
      cases hst with
      | inl h1 =>
        simp [rowVerifyHandler, verifyClickPre, verifySuccessRow, hs, respLabel, jsOr, h0, h1]
      | inr h1 =>
        simp [rowVerifyHandler, verifyClickPre, verifySuccessRow, hs, respLabel, jsOr, h0, h1]
    | inr h0 =>
      cases hst with
      | inl h1 =>
        simp [rowVerifyHandler, verifyClickPre, verifySuccessRow, hs, respLabel, jsOr, h0, h1]
      | inr h1 =>
        simp [rowVerifyHandler, verifyClickPre, verifySuccessRow, hs, respLabel, jsOr, h0, h1]

/-- Witness for C4 (amended) at the spec's concrete scenario: no
`status_display`, raw `status` "VERIFIED" used as fallback. -/
theorem c4_witness :
    (rowVerifyHandler rowRecorded (FetchResult.ok (some respVerified)) false).ekycStatus
      = rowRecorded.ekycStatus.map (fun _ => "VERIFIED") :=
  (c4_verify_success_amended rowRecorded respVerified rfl).2.2.2.2.1
    (Or.inl rfl) "VERIFIED" rfl (by decide)

/-- Reduction of the verify handler in the success case: the handler
updates the clicked row in place and then dispatches on the table scan. -/
theorem verifyHandler_success_eq (dmp : Bool) (table : List Row) (i : Nat) (row : Row)
    (d : RespData) (h : table[i]? = some row) (hs : d.success = true) :
    verifyHandler dmp table i (FetchResult.ok (some d)) =
      (match scanAllVerified (table.set i (verifySuccessRow (verifyClickPre row) d)) with
       | Except.error _ =>
         ((table.set i (verifySuccessRow (verifyClickPre row) d)).set i
            (setActionStatus (verifySuccessRow (verifyClickPre row) d) " Error"), noEffects)
       | Except.ok true =>
         (table.set i (verifySuccessRow (verifyClickPre row) d),
          { showDoneMsg := dmp, scheduleReload := true })
       | Except.ok false =>
         (table.set i (verifySuccessRow (verifyClickPre row) d), noEffects)) := by
  simp only [verifyHandler, h, hs, if_true, List.set_set]

/-- C5: after a successful verify on row `i` (with the done-message
element present), the done message is shown and a reload is scheduled
after `reloadDelayMs` = 900 ms if and only if every row of the updated
participants table has a status label whose trimmed, lower-cased text is
"verified". -/
theorem c5_all_verified_reload :
    ∀ (table : List Row) (i : Nat) (row : Row) (d : RespData),
      table[i]? = some row → d.success = true →
      reloadDelayMs = 900
      ∧ (((verifyHandler true table i (FetchResult.ok (some d))).2.showDoneMsg = true
          ∧ (verifyHandler true table i (FetchResult.ok (some d))).2.scheduleReload = true)
         ↔ ∀ x ∈ table.set i (verifySuccessRow (verifyClickPre row) d),
             rowReadsVerified x = true) := by
  intro table i row d h hs
  refine ⟨rfl, ?_⟩
  rw [verifyHandler_success_eq true table i row d h hs]
  cases hscan : scanAllVerified (table.set i (verifySuccessRow (verifyClickPre row) d)) with
  | error u =>
    constructor
    · rintro ⟨hf, -⟩
      simp [noEffects] at hf
    · intro hall
      have hok := (scanAllVerified_ok_true_iff _).mpr hall
      rw [hscan] at hok
      exact absurd hok (by simp)
  | ok bv =>
    cases bv with
    | true =>
      constructor
      · intro _
        exact (scanAllVerified_ok_true_iff _).mp hscan
      · intro _
        exact ⟨rfl, rfl⟩
    | false =>
      constructor
      · rintro ⟨hf, -⟩
        simp [noEffects] at hf
      · intro hall
        have hok := (scanAllVerified_ok_true_iff _).mpr hall
        rw [hscan] at hok
        exact absurd hok (by simp)

/-- A concrete row with no `.ekyc-status` child element. -/
def rowNoLabel : Row :=
  { participantId := "7", participantRole := "trainer",
    recordBtn := some true, verifyBtn := some false,
    ekycStatus := none, actionStatus := some "" }

/-- A one-row table whose only row lacks a `.ekyc-status` child. -/
def tableMissingLabel : List Row := [rowNoLabel]

/-- Witness for C5 at concrete inputs: one-row table, successful verify,
scan finds the single (updated) row verified. -/
theorem c5_witness :
    reloadDelayMs = 900
    ∧ (((verifyHandler true [rowRecorded] 0 (FetchResult.ok (some respVerified))).2.showDoneMsg = true
        ∧ (verifyHandler true [rowRecorded] 0 (FetchResult.ok (some respVerified))).2.scheduleReload = true)
       ↔ ∀ x ∈ [rowRecorded].set 0 (verifySuccessRow (verifyClickPre rowRecorded) respVerified),
           rowReadsVerified x = true) :=
  c5_all_verified_reload [rowRecorded] 0 rowRecorded respVerified rfl rfl

/-- C10: the scan of line 80 dereferences each visited row's
`.ekyc-status` child with no null check — it throws exactly when some row
lacking that child is reached, i.e. when all rows before it read
"verified" — and when it throws after a successful verify, the caught
exception makes the handler overwrite the clicked row's caption with
" Error" even though its status label was already updated from the
response and both its buttons were disabled; no done message is shown and
no reload is scheduled. -/
theorem c10_scan_null_deref :
    (∀ t, scanAllVerified t = Except.error () ↔
       ∃ t1 r t2, t = t1 ++ r :: t2 ∧ r.ekycStatus = none
         ∧ ∀ x ∈ t1, rowReadsVerified x = true)
    ∧ (∀ (dmp : Bool) (table : List Row) (i : Nat) (row : Row) (d : RespData),
        table[i]? = some row → d.success = true →
        scanAllVerified (table.set i (verifySuccessRow (verifyClickPre row) d))
          = Except.error () →
        verifyHandler dmp table i (FetchResult.ok (some d))
          = (table.set i
               (setActionStatus (verifySuccessRow (verifyClickPre row) d) " Error"),
             noEffects)
        ∧ (setActionStatus (verifySuccessRow (verifyClickPre row) d) " Error").actionStatus
            = row.actionStatus.map (fun _ => " Error")
        ∧ (setActionStatus (verifySuccessRow (verifyClickPre row) d) " Error").ekycStatus
            = row.ekycStatus.map (fun _ => respLabel d "Verified")
        ∧ ¬ recordEnabled (setActionStatus (verifySuccessRow (verifyClickPre row) d) " Error")
        ∧ ¬ verifyEnabled (setActionStatus (verifySuccessRow (verifyClickPre row) d) " Error")) := by
  constructor
  · exact scanAllVerified_error_iff
  · intro dmp table i row d h hs hthrow
    refine ⟨?_, ?_, ?_, ?_, ?_⟩
    · rw [verifyHandler_success_eq dmp table i row d h hs]
      rw [hthrow, List.set_set]
    · cases ha : row.actionStatus <;>
        simp [setActionStatus, verifySuccessRow, verifyClickPre, ha]
    · cases he : row.ekycStatus <;>
        simp [setActionStatus, verifySuccessRow, verifyClickPre, he]
    · cases hr : row.recordBtn <;>
        simp [setActionStatus, verifySuccessRow, verifyClickPre, recordEnabled, hr]
    · simp [setActionStatus, verifySuccessRow, verifyClickPre, verifyEnabled]

/-- Witness for C10 at concrete inputs: clicking verify on the label-less
row of `tableMissingLabel` succeeds, the scan visits it and throws, and
the caption of the clicked row is overwritten with " Error". -/
theorem c10_witness :
    verifyHandler true tableMissingLabel 0 (FetchResult.ok (some respVerified))
      = (tableMissingLabel.set 0
           (setActionStatus
             (verifySuccessRow (verifyClickPre rowNoLabel) respVerified) " Error"),
         noEffects) :=
  (c10_scan_null_deref.2 true tableMissingLabel 0 rowNoLabel
    respVerified rfl rfl rfl).1

/-- C6 counterexample: when the root element is present but carries no
`data-endpoint` attribute, the endpoint is the JavaScript value
`undefined` — not the current page URL as the claim states. -/
theorem c6_counterexample :
    endpointInit (some none) "https://host.test/page" = none
    ∧ (none : Option String) ≠ some "https://host.test/page" :=
  ⟨rfl, by decide⟩

/-- C6 (amended): the endpoint is the root element's `data-endpoint`
attribute when the root is present and the attribute is set; it falls
back to the current page URL only when the root element is absent; when
the root is present but the attribute is absent the endpoint is
`undefined`. -/
theorem c6_endpoint_amended :
    ∀ (u pageHref : String),
      endpointInit none pageHref = some pageHref
      ∧ endpointInit (some (some u)) pageHref = some u
      ∧ endpointInit (some none) pageHref = none := by
  intro u pageHref
  exact ⟨rfl, rfl, rfl⟩

/-- C7: each record and verify action issues exactly one form-encoded
POST to the configured endpoint, whose body is exactly the fields
`action` (`record_fingerprint` / `verify_ekyc`), `participant_id`,
`participant_role` from the row, with header
`X-Requested-With: XMLHttpRequest` and `X-CSRFToken` equal to the
`csrftoken` cookie's value, or the empty string when that cookie is
absent. -/
theorem c7_request_shape :
    ∀ (ep : Option String) (jar : List (String × String)) (r : Row),
      recordFetches ep jar r = [actionRequest ep jar "record_fingerprint" r]
      ∧ verifyFetches ep jar r = [actionRequest ep jar "verify_ekyc" r]
      ∧ (∀ q ∈ recordFetches ep jar r,
           q.method = "POST" ∧ q.url = ep
           ∧ q.xRequestedWith = "XMLHttpRequest"
           ∧ q.xCsrfToken = getCookie jar "csrftoken"
           ∧ q.body = [("action", "record_fingerprint"),
                       ("participant_id", r.participantId),
                       ("participant_role", r.participantRole)])
      ∧ (∀ q ∈ verifyFetches ep jar r,
           q.method = "POST" ∧ q.url = ep
           ∧ q.xRequestedWith = "XMLHttpRequest"
           ∧ q.xCsrfToken = getCookie jar "csrftoken"
           ∧ q.body = [("action", "verify_ekyc"),
                       ("participant_id", r.participantId),
                       ("participant_role", r.participantRole)])
      ∧ (jar.lookup "csrftoken" = none → getCookie jar "csrftoken" = "")
      ∧ (∀ v, jar.lookup "csrftoken" = some v → getCookie jar "csrftoken" = v) := by
  intro ep jar r
  refine ⟨rfl, rfl, ?_, ?_, ?_, ?_⟩
  · intro q hq
    rw [List.mem_singleton.mp hq]
    exact ⟨rfl, rfl, rfl, rfl, rfl⟩
  · intro q hq
    rw [List.mem_singleton.mp hq]
    exact ⟨rfl, rfl, rfl, rfl, rfl⟩
  · intro hnone
    simp [getCookie, hnone]
  · intro v hv
    simp [getCookie, hv]

/-- Witness for C7 at concrete inputs: a one-cookie jar holding
`csrftoken=tok`, the record request on `rowIdle`. -/
theorem c7_witness :
    ((actionRequest (some "https://host.test/ekyc") [("csrftoken", "tok")]
        "record_fingerprint" rowIdle).method = "POST"
     ∧ (actionRequest (some "https://host.test/ekyc") [("csrftoken", "tok")]
          "record_fingerprint" rowIdle).url = some "https://host.test/ekyc"
     ∧ (actionRequest (some "https://host.test/ekyc") [("csrftoken", "tok")]
          "record_fingerprint" rowIdle).xRequestedWith = "XMLHttpRequest"
     ∧ (actionRequest (some "https://host.test/ekyc") [("csrftoken", "tok")]
          "record_fingerprint" rowIdle).xCsrfToken
         = getCookie [("csrftoken", "tok")] "csrftoken"
     ∧ (actionRequest (some "https://host.test/ekyc") [("csrftoken", "tok")]
          "record_fingerprint" rowIdle).body
         = [("action", "record_fingerprint"),
            ("participant_id", rowIdle.participantId),
            ("participant_role", rowIdle.participantRole)])
    ∧ getCookie [] "csrftoken" = "" :=
  ⟨(c7_request_shape (some "https://host.test/ekyc") [("csrftoken", "tok")] rowIdle).2.2.1
      (actionRequest (some "https://host.test/ekyc") [("csrftoken", "tok")]
        "record_fingerprint" rowIdle) (List.mem_singleton.mpr rfl),
   (c7_request_shape (some "https://host.test/ekyc") [] rowIdle).2.2.2.2.1 rfl⟩

/-- C8: clicking the test-connection button immediately disables it, sets
the status text to "Testing..." and shows the loader; the timer callback,
installed with a fixed 2000 ms delay and issuing no network request,
hides the loader, sets the status to "Connection succeeded!", reveals the
participants container, and moves focus to the first enabled record
button exactly when one exists.  The handler is total with this single
outcome, so no failure path exists. -/
theorem c8_test_connection :
    ∀ (s : TestState) (hasEnabledRecord : Bool),
      s.testStatus.isSome = true → s.loaderVisible.isSome = true →
      s.participantsVisible.isSome = true →
      testDelayMs = 2000
      ∧ testClickFetches = []
      ∧ (testClickImmediate s).testBtnDisabled = true
      ∧ (testClickImmediate s).testStatus = some "Testing..."
      ∧ (testClickImmediate s).loaderVisible = some true
      ∧ (testTimeoutFire (testClickImmediate s) hasEnabledRecord).loaderVisible = some false
      ∧ (testTimeoutFire (testClickImmediate s) hasEnabledRecord).testStatus
          = some "Connection succeeded!"
      ∧ (testTimeoutFire (testClickImmediate s) hasEnabledRecord).participantsVisible
          = some true
      ∧ (testTimeoutFire (testClickImmediate s) hasEnabledRecord).focusedFirstRecord
          = hasEnabledRecord := by
  intro s b h1 h2 h3
  obtain ⟨ts, hts⟩ := Option.isSome_iff_exists.mp h1
  obtain ⟨lv, hlv⟩ := Option.isSome_iff_exists.mp h2
  obtain ⟨pv, hpv⟩ := Option.isSome_iff_exists.mp h3
  refine ⟨rfl, rfl, rfl, ?_, ?_, ?_, ?_, ?_, rfl⟩ <;>
    simp [testClickImmediate, testTimeoutFire, hts, hlv, hpv]

/-- A concrete pre-click test-connection UI state with every optional
element present. -/
def testStateIdle : TestState :=
  { testBtnDisabled := false, testStatus := some "",
    loaderVisible := some false, participantsVisible := some false,
    focusedFirstRecord := false }

/-- Witness for C8 at concrete inputs: `testStateIdle` with an enabled
record button available to focus. -/
theorem c8_witness :
    testDelayMs = 2000
    ∧ testClickFetches = []
    ∧ (testClickImmediate testStateIdle).testBtnDisabled = true
    ∧ (testClickImmediate testStateIdle).testStatus = some "Testing..."
    ∧ (testClickImmediate testStateIdle).loaderVisible = some true
    ∧ (testTimeoutFire (testClickImmediate testStateIdle) true).loaderVisible = some false
    ∧ (testTimeoutFire (testClickImmediate testStateIdle) true).testStatus
        = some "Connection succeeded!"
    ∧ (testTimeoutFire (testClickImmediate testStateIdle) true).participantsVisible
        = some true
    ∧ (testTimeoutFire (testClickImmediate testStateIdle) true).focusedFirstRecord = true :=
  c8_test_connection testStateIdle true rfl rfl rfl

end EkycWidget
